import Mathlib

/-!
Verification development for the kcidb-rest logspec worker
(`logspec-worker/logspec_worker.py` and `logspec-worker/logspec_api.py`).

The Python source is shallowly embedded: pure functions become Lean
functions, dictionary-shaped records become structures, Python exceptions
and `sys.exit` become `Except` values, and the external collaborators
(PostgreSQL, HTTP, the logspec classification engine, the filesystem) are
modelled as explicit inputs or as traces of effects.
-/

/-! ## Python `fnmatch` (shell-glob matching, POSIX case-sensitive)

`logspec_worker.py` matches test paths against config patterns with
`fnmatch.fnmatch(path, pattern)`.  On POSIX `os.path.normcase` is the
identity, so matching is case-sensitive.  `*` matches any sequence of
characters (including `/`), `?` matches any single character, `[seq]`
matches a character class with ranges, `[!seq]` its complement; a `[`
without a closing `]` is a literal `[`.  The matcher below is written
with an explicit fuel argument so that it is structurally recursive and
evaluates inside the kernel; the fuel passed by `fnmatch` is an upper
bound on the recursion depth, so it is never exhausted.
-/

/-- Scan for the closing `]` of a character class: returns the class body
and the remainder of the pattern. -/
def findClose : List Char → Option (List Char × List Char)
  | [] => none
  | c :: t =>
    if c = ']' then some ([], t)
    else (findClose t).map (fun p => (c :: p.1, p.2))

/-- Split a pattern suffix (the part after `[`) into a negation flag, the
class body and the rest of the pattern; the first body character (even
`]`) is literal, as in Python `fnmatch.translate`. -/
def splitClass : List Char → Option (Bool × List Char × List Char)
  | '!' :: c :: t => (findClose t).map (fun p => (true, c :: p.1, p.2))
  | c :: t => (findClose t).map (fun p => (false, c :: p.1, p.2))
  | [] => none

/-- Does a character match a class body?  `a-b` denotes a range; other
characters are literals (a trailing or leading `-` is literal). -/
def classMatch : List Char → Char → Bool
  | a :: '-' :: b :: rest, c =>
    (a.toNat ≤ c.toNat && c.toNat ≤ b.toNat) || classMatch rest c
  | a :: rest, c => a = c || classMatch rest c
  | [], _ => false

/-- Fuel-indexed glob matcher; `fuel` bounds the recursion depth. -/
def fnmatchAux : Nat → List Char → List Char → Bool
  | 0, _, _ => false
  | _ + 1, [], s => s.isEmpty
  | fuel + 1, '*' :: p, s =>
    fnmatchAux fuel p s ||
      (match s with
       | [] => false
       | _ :: s1 => fnmatchAux fuel ('*' :: p) s1)
  | fuel + 1, '?' :: p, s =>
    (match s with
     | [] => false
     | _ :: s1 => fnmatchAux fuel p s1)
  | fuel + 1, '[' :: p, s =>
    (match splitClass p with
     | some (neg, cls, rest) =>
       (match s with
        | [] => false
        | c :: s1 => (classMatch cls c != neg) && fnmatchAux fuel rest s1)
     | none =>
       (match s with
        | [] => false
        | c :: s1 => (c = '[') && fnmatchAux fuel p s1))
  | fuel + 1, c :: p, s =>
    (match s with
     | [] => false
     | d :: s1 => (c = d) && fnmatchAux fuel p s1)

/-- Model of Python `fnmatch.fnmatch(name, pattern)`.  Every recursive
step of `fnmatchAux` strictly shrinks the pattern or the string, so
`pattern length + name length + 1` fuel is always sufficient. -/
def fnmatch (name pattern : String) : Bool :=
  fnmatchAux (pattern.data.length + name.data.length + 1) pattern.data name.data

/-! ## Eligibility configuration (`LogspecState` in `logspec_worker.py`)

The YAML config maps an origin name to a list of rules; each rule has a
`type` field and an optional `include_path` whose YAML value may be a
string, a list of strings, or (malformed) anything else.
-/

deriving instance DecidableEq for Except

/-- The YAML value found under `include_path` in a config rule. -/
inductive IncludePath where
  /-- a single glob pattern -/
  | str (s : String)
  /-- a list of glob patterns -/
  | list (l : List String)
  /-- any other YAML value: neither a string nor a list (malformed) -/
  | other
deriving DecidableEq

/-- One entry of an origin's rule list in the config file. -/
structure Rule where
  type : String
  include_path : Option IncludePath
deriving DecidableEq

/-- The logspec worker config: a YAML mapping from origin to rule list,
modelled as an association list with distinct keys. -/
abbrev Config : Type := List (String × List Rule)

/-- Python `dict` lookup on the config (`node_origin not in self._cfg`). -/
def lookupOrigin (cfg : Config) (origin : String) : Option (List Rule) :=
  (List.find? (fun p => p.1 = origin) cfg).map Prod.snd

/-- A database row handed to the worker (`DictCursor` row): the fields the
worker reads from a `tests`/`builds` record. -/
structure WNode where
  id : String
  origin : String
  path : String
  log_url : String
deriving DecidableEq

/-- Model of `LogspecState.validate_path`: a string pattern is wrapped
into a one-element list; a list is scanned with `fnmatch`; any other
value logs an error and calls `sys.exit(1)`, modelled as `.error ()`. -/
def validate_path (path : String) (ip : IncludePath) : Except Unit Bool :=
  match ip with
  | .str s => .ok (fnmatch path s)
  | .list l => .ok (l.any (fun pat => fnmatch path pat))
  | .other => .error ()

/-- The rule-list scan inside `LogspecState.is_processable`: the first
rule whose `type` equals the requested kind decides; with an
`include_path` the decision is `validate_path`, without one it is
`True`; if no rule matches the kind the result is `False`. -/
def isProcessableRules (rules : List Rule) (path ty : String) : Except Unit Bool :=
  match rules with
  | [] => .ok false
  | r :: rs =>
    if r.type = ty then
      match r.include_path with
      | some ip => validate_path path ip
      | none => .ok true
    else isProcessableRules rs path ty

/-- Model of `LogspecState.is_processable(node, type)`: an origin absent
from the config is not processable; otherwise the origin's rule list is
scanned. -/
def is_processable (cfg : Config) (node : WNode) (ty : String) : Except Unit Bool :=
  match lookupOrigin cfg node.origin with
  | none => .ok false
  | some rules => isProcessableRules rules node.path ty

/-- The three ways the config file can present itself to
`LogspecState.load_config`: absent, present but failing to parse, or
parsed into a mapping. -/
inductive ConfigFile where
  /-- `os.path.exists` is false: the worker warns and uses `{}` -/
  | missing
  /-- `yaml.safe_load` (or `open`) raises: the worker exits fatally -/
  | unreadable
  /-- the YAML parsed into a config mapping -/
  | parsed (c : Config)

/-- Model of `LogspecState.load_config`: a missing file yields the empty
config with a warning; a parse failure is fatal (`sys.exit(1)`); a parsed
file is stored as-is — no validation of `include_path` values happens at
load time. -/
def load_config : ConfigFile → Except Unit Config
  | .missing => .ok []
  | .unreadable => .error ()
  | .parsed c => .ok c

/-! ## Byte-level models: UTF-8, JSON serialization, SHA-1

`logspec_api.new_incident` computes
`hashlib.sha1(json.dumps([result_id, issue_id, issue_version],
sort_keys=True, ensure_ascii=False).encode("utf-8")).hexdigest()`.
These external library calls are modelled bit-for-bit: bytes are `Nat`
values below 256 and 32-bit words are `Nat` values reduced mod `2 ^ 32`.
-/

/-- UTF-8 encoding of one Unicode code point (model of `str.encode`). -/
def utf8EncodeChar (n : Nat) : List Nat :=
  if n < 128 then [n]
  else if n < 2048 then
    [192 ||| (n >>> 6), 128 ||| (n &&& 63)]
  else if n < 65536 then
    [224 ||| (n >>> 12), 128 ||| ((n >>> 6) &&& 63), 128 ||| (n &&& 63)]
  else
    [240 ||| (n >>> 18), 128 ||| ((n >>> 12) &&& 63),
     128 ||| ((n >>> 6) &&& 63), 128 ||| (n &&& 63)]

/-- UTF-8 encoding of a string as a byte list. -/
def utf8Encode (s : String) : List Nat :=
  s.data.flatMap (fun c => utf8EncodeChar c.toNat)

/-- Lowercase hex digit for a nibble. -/
def hexDigit (n : Nat) : Char :=
  if n < 10 then Char.ofNat (48 + n) else Char.ofNat (87 + n)

/-- Fixed-width lowercase hex rendering of `x` (most significant first). -/
def hexFixed (width x : Nat) : String :=
  String.mk ((List.range width).map (fun i => hexDigit ((x >>> (4 * (width - 1 - i))) % 16)))

/-- JSON escaping of one character as done by `json.dumps` with
`ensure_ascii=False`: only `"`, `\` and control characters below 0x20
are escaped. -/
def jsonEscapeChar (c : Char) : String :=
  if c = '\\' then "\\\\"
  else if c = '"' then "\\\""
  else if c.toNat = 8 then "\\b"
  else if c.toNat = 12 then "\\f"
  else if c = '\n' then "\\n"
  else if c.toNat = 13 then "\\r"
  else if c = '\t' then "\\t"
  else if c.toNat < 32 then "\\u" ++ hexFixed 4 c.toNat
  else String.singleton c

/-- JSON string literal as produced by `json.dumps(..., ensure_ascii=False)`. -/
def jsonString (s : String) : String :=
  "\"" ++ String.join (s.data.map jsonEscapeChar) ++ "\""

/-- `json.dumps([result_id, issue_id, issue_version], sort_keys=True,
ensure_ascii=False)`: the default item separator is a comma and a space;
`sort_keys` has no effect on a list. -/
def idComponents (result_id issue_id : String) (issue_version : Nat) : String :=
  "[" ++ jsonString result_id ++ ", " ++ jsonString issue_id ++ ", " ++
    toString issue_version ++ "]"

/-- Modulus for 32-bit words. -/
def M32 : Nat := 4294967296

/-- 32-bit left rotation. -/
def rotl (k x : Nat) : Nat :=
  ((x <<< k) ||| (x >>> (32 - k))) % M32

/-- SHA-1 padding: append `0x80`, zero bytes up to 56 mod 64, then the
original bit length as an 8-byte big-endian integer. -/
def sha1Pad (msg : List Nat) : List Nat :=
  let len := msg.length
  let zeros := (120 - ((len + 1) % 64)) % 64
  msg ++ [128] ++ List.replicate zeros 0 ++
    (List.range 8).map (fun i => ((len * 8) >>> (8 * (7 - i))) % 256)

/-- Big-endian grouping of bytes into 32-bit words. -/
def bytesToWords : List Nat → List Nat
  | b0 :: b1 :: b2 :: b3 :: rest =>
    (((b0 * 256 + b1) * 256 + b2) * 256 + b3) :: bytesToWords rest
  | _ => []

/-- SHA-1 message-schedule extension, building the 80 words in reverse
(head = most recent word): `w[i] = rotl1 (w[i-3] ^ w[i-8] ^ w[i-14] ^ w[i-16])`. -/
def sha1ExtendRev (acc : List Nat) : Nat → List Nat
  | 0 => acc
  | n + 1 =>
    sha1ExtendRev
      (rotl 1 ((acc.getD 2 0) ^^^ (acc.getD 7 0) ^^^ (acc.getD 13 0) ^^^ (acc.getD 15 0)) :: acc) n

/-- The 80-word message schedule of one 64-byte block. -/
def sha1Schedule (block : List Nat) : List Nat :=
  (sha1ExtendRev (bytesToWords block).reverse 64).reverse

/-- The five 32-bit words of SHA-1 chaining state. -/
structure Sha1State where
  h0 : Nat
  h1 : Nat
  h2 : Nat
  h3 : Nat
  h4 : Nat

/-- SHA-1 initial state. -/
def sha1Init : Sha1State :=
  ⟨1732584193, 4023233417, 2562383102, 271733878, 3285377520⟩

/-- SHA-1 round function. -/
def sha1F (t b c d : Nat) : Nat :=
  if t < 20 then (b &&& c) ||| ((b ^^^ 4294967295) &&& d)
  else if t < 40 then b ^^^ c ^^^ d
  else if t < 60 then (b &&& c) ||| (b &&& d) ||| (c &&& d)
  else b ^^^ c ^^^ d

/-- SHA-1 round constants. -/
def sha1K (t : Nat) : Nat :=
  if t < 20 then 1518500249
  else if t < 40 then 1859775393
  else if t < 60 then 2400959708
  else 3395469782

/-- SHA-1 compression of one 64-byte block into the chaining state. -/
def sha1Compress (st : Sha1State) (block : List Nat) : Sha1State :=
  let w := sha1Schedule block
  let r :=
    (List.range 80).foldl
      (fun (s : Nat × Nat × Nat × Nat × Nat) t =>
        let tmp := (rotl 5 s.1 + sha1F t s.2.1 s.2.2.1 s.2.2.2.1 + s.2.2.2.2 +
          sha1K t + w.getD t 0) % M32
        (tmp, s.1, rotl 30 s.2.1, s.2.2.1, s.2.2.2.1))
      (st.h0, st.h1, st.h2, st.h3, st.h4)
  ⟨(st.h0 + r.1) % M32, (st.h1 + r.2.1) % M32, (st.h2 + r.2.2.1) % M32,
   (st.h3 + r.2.2.2.1) % M32, (st.h4 + r.2.2.2.2) % M32⟩

/-- SHA-1 digest state of a byte string. -/
def sha1Digest (msg : List Nat) : Sha1State :=
  let padded := sha1Pad msg
  (List.range (padded.length / 64)).foldl
    (fun st i => sha1Compress st ((padded.drop (64 * i)).take 64)) sha1Init

/-- Model of `hashlib.sha1(...).hexdigest()` on a byte list. -/
def sha1Hex (msg : List Nat) : String :=
  let st := sha1Digest msg
  hexFixed 8 st.h0 ++ hexFixed 8 st.h1 ++ hexFixed 8 st.h2 ++
    hexFixed 8 st.h3 ++ hexFixed 8 st.h4

/-- SHA-1 hex digest of the UTF-8 encoding of a string, the composition
used by `new_incident`. -/
def sha1HexOfString (s : String) : String :=
  sha1Hex (utf8Encode s)

/-! ## `logspec_api.py`: object-type table, findings, issues, incidents -/

/-- The keys of the `test_types` configuration table in `logspec_api.py`.
`new_issue` and `new_incident` are only reached for a `test_type` that is
a key of the table (`generate_issues_and_incidents` returns early
otherwise), so the valid keys form this inductive type. -/
inductive TestType where
  | build
  | boot
  | kselftest
deriving DecidableEq

/-- One entry of the `test_types` table: the logspec parser to use, the
object id field to set in incidents, and the optional extra issue
parameters. -/
structure TestTypeCfg where
  parser : String
  incident_id_field : String
  build_valid : Option Bool
  test_status : Option String
deriving DecidableEq

/-- The `test_types` configuration table of `logspec_api.py`. -/
def test_types : TestType → TestTypeCfg
  | .build => ⟨"kbuild", "build_id", some false, none⟩
  | .boot => ⟨"generic_linux_boot", "test_id", none, some "FAIL"⟩
  | .kselftest => ⟨"test_kselftest", "test_id", none, some "FAIL"⟩

/-- Python `dict` membership of the `test_types` table: the
`test_type not in test_types` check of `generate_issues_and_incidents`. -/
def lookupTestType : String → Option TestType
  | "build" => some .build
  | "boot" => some .boot
  | "kselftest" => some .kselftest
  | _ => none

/-- The `error` sub-dictionary of a normalized logspec finding, as built
by `get_logspec_errors`.  `error_type` is modelled as a plain string: the
logspec engine always sets a non-empty `error_type` on its error objects,
so the truthiness filter of `get_logspec_errors` keeps the key, and the
two synthetic boot findings set it explicitly.  The optional fields model
dictionary keys that may be absent. -/
structure ErrorDict where
  error_type : String
  error_summary : Option String
  target : Option String
  src_file : Option String
  script : Option String
  signature : String
  log_excerpt : String
  signature_fields : List (String × String)
deriving DecidableEq

/-- A normalized finding as produced by `get_logspec_errors`: the shared
provenance fields (`version`, `parser`) plus the `error` dictionary. -/
structure LogspecError where
  version : String
  parser : String
  error : ErrorDict
deriving DecidableEq

/-- The version string reported by the external logspec engine
(`logspec.main.logspec_version()`); its value is irrelevant to every
claim, only its propagation matters. -/
def logspecVersion : String := "logspec"

/-- A raw error object produced by the logspec engine
(`logspec.main.parse_log`): the public attributes read by
`get_logspec_errors` plus the hidden `_signature`, `_report` and
`_signature_fields` attributes.  Optional fields model attributes whose
value may be `None`/empty, which the truthiness filter drops. -/
structure EngineError where
  error_type : String
  error_summary : Option String
  target : Option String
  src_file : Option String
  script : Option String
  signature : String
  report : String
  signature_fields : List (String × String)
deriving DecidableEq

/-- Python truthiness filter for an optional string attribute: `None` and
the empty string are dropped by the `if v` comprehension guard. -/
def truthyStr : Option String → Option String
  | none => none
  | some s => if s = "" then none else some s

/-- Conversion of one engine error into a normalized finding
(the loop body of `get_logspec_errors`): public truthy attributes are
kept, then `signature`, `log_excerpt` and `signature_fields` are set from
the hidden attributes. -/
def convertEngineError (parser : String) (e : EngineError) : LogspecError :=
  { version := logspecVersion
    parser := parser
    error :=
      { error_type := e.error_type
        error_summary := truthyStr e.error_summary
        target := truthyStr e.target
        src_file := truthyStr e.src_file
        script := truthyStr e.script
        signature := e.signature
        log_excerpt := e.report
        signature_fields := e.signature_fields } }

/-- The logspec parse result consumed by `get_logspec_errors`: the
`errors` list plus the derived-state keys the boot special-casing reads
(`linux.boot.prompt`, `bootloader.done`, `linux.boot.kernel_started` via
`dict.get`, so an absent key reads as false) and the hidden `_signature`
and `_signature_fields` entries. -/
structure ParsedLogData where
  errors : List EngineError
  signature : String
  signature_fields : List (String × String)
  prompt : Bool
  bootloader_done : Bool
  kernel_started : Bool
deriving DecidableEq

/-- The synthetic boot finding built by `create_special_boot_error`:
error type `linux.kernel.boot`, the given summary, the boot-state
signature computed by the engine, and an empty log excerpt. -/
def createSpecialBootError (pd : ParsedLogData) (summary : String) : LogspecError :=
  { version := logspecVersion
    parser := "generic_linux_boot"
    error :=
      { error_type := "linux.kernel.boot"
        error_summary := some summary
        target := none
        src_file := none
        script := none
        signature := pd.signature
        log_excerpt := ""
        signature_fields := pd.signature_fields } }

/-- Summary of the synthetic "unclean boot" finding. -/
def uncleanBootSummary : String :=
  "WARNING: Unclean boot. Reached prompt but marked as failed."

/-- Summary of the synthetic "boot infra failure" finding. -/
def bootInfraSummary : String :=
  "Bootloader did not finish or kernel did not start."

/-- Model of `get_logspec_errors(parsed_data, parser)`: for the
`generic_linux_boot` parser the two special cases may prepend one
synthetic finding and propose a corrected status (`PASS` for a boot that
reached a prompt, `MISS` when the bootloader did not finish or the kernel
did not start); afterwards every engine error is appended in order.
Returns the error list and the proposed new status. -/
def get_logspec_errors (pd : ParsedLogData) (parser : String) :
    List LogspecError × Option String :=
  let special : List LogspecError × Option String :=
    if parser = "generic_linux_boot" then
      if pd.prompt then
        ([createSpecialBootError pd uncleanBootSummary], some "PASS")
      else if !pd.bootloader_done || !pd.kernel_started then
        ([createSpecialBootError pd bootInfraSummary], some "MISS")
      else ([], none)
    else ([], none)
  (special.1 ++ pd.errors.map (convertEngineError parser), special.2)

/-- A normalized finding with the `signature` key popped, as stored under
`misc.logspec` of an issue (`error_copy` after
`error_copy["error"].pop("signature")`). -/
structure MiscError where
  error_type : String
  error_summary : Option String
  target : Option String
  src_file : Option String
  script : Option String
  log_excerpt : String
  signature_fields : List (String × String)
deriving DecidableEq

/-- The `misc.logspec` payload of an issue. -/
structure MiscLogspec where
  version : String
  parser : String
  error : MiscError
deriving DecidableEq

/-- Popping `signature` from an error dictionary. -/
def popSignature (e : ErrorDict) : MiscError :=
  { error_type := e.error_type
    error_summary := e.error_summary
    target := e.target
    src_file := e.src_file
    script := e.script
    log_excerpt := e.log_excerpt
    signature_fields := e.signature_fields }

/-- The three culprit flags of a KCIDB issue. -/
structure Culprit where
  code : Bool
  harness : Bool
  tool : Bool
deriving DecidableEq

/-- A KCIDB issue as built by `new_issue`; `build_valid` and
`test_status` model keys that are only set for the object types whose
`test_types` entry carries them. -/
structure Issue where
  origin : String
  id : String
  version : Nat
  comment : String
  misc : MiscLogspec
  culprit : Culprit
  build_valid : Option Bool
  test_status : Option String
deriving DecidableEq

/-- Model of `logspec_api.new_issue(logspec_error, test_type, origin)`:
the issue id is the origin, a colon and the finding's signature; the
version is the constant 1; the comment concatenates (each only when
present) a space and the summary, `" in "` and the target, the source
file or script in parentheses, and the fixed
`" [logspec:<parser>,<error_type>]"` suffix. -/
def new_issue (le : LogspecError) (test_type : TestType) (origin : String) : Issue :=
  let signature := le.error.signature
  let comment :=
    (match le.error.error_summary with
     | some s => " " ++ s
     | none => "") ++
    (match le.error.target with
     | some t =>
       " in " ++ t ++
         (match le.error.src_file with
          | some sf => " (" ++ sf ++ ")"
          | none =>
            match le.error.script with
            | some sc => " (" ++ sc ++ ")"
            | none => "")
     | none => "") ++
    " [logspec:" ++ (test_types test_type).parser ++ "," ++ le.error.error_type ++ "]"
  { origin := origin
    id := origin ++ ":" ++ signature
    version := 1
    comment := comment
    misc := ⟨le.version, le.parser, popSignature le.error⟩
    culprit := ⟨true, false, false⟩
    build_valid := (test_types test_type).build_valid
    test_status := (test_types test_type).test_status }

/-- A KCIDB incident as built by `new_incident`; exactly one of
`build_id`/`test_id` is set, according to the `incident_id_field` of the
object type. -/
structure Incident where
  id : String
  issue_id : String
  issue_version : Nat
  build_id : Option String
  test_id : Option String
  comment : String
  origin : String
  present : Bool
deriving DecidableEq

/-- Model of `logspec_api.new_incident(result_id, issue_id, test_type,
issue_version, origin)`: the SHA-1 hex digest of the JSON serialization
of `[result_id, issue_id, issue_version]` is computed, and the incident
id is the origin, a colon and that digest. -/
def new_incident (result_id issue_id : String) (test_type : TestType)
    (issue_version : Nat) (origin : String) : Incident :=
  let incident_id := sha1HexOfString (idComponents result_id issue_id issue_version)
  { id := origin ++ ":" ++ incident_id
    issue_id := issue_id
    issue_version := issue_version
    build_id :=
      if (test_types test_type).incident_id_field = "build_id" then some result_id else none
    test_id :=
      if (test_types test_type).incident_id_field = "test_id" then some result_id else none
    comment := "test incident, automatically generated"
    origin := origin
    present := true }

/-- The `parsed_data` accumulator of `generate_issues_and_incidents`. -/
structure ParsedData where
  issue_node : List Issue
  incident_node : List Incident
deriving DecidableEq

/-- The empty accumulator. -/
def emptyParsedData : ParsedData := ⟨[], []⟩

/-- The error type that `generate_issues_and_incidents` filters out as
non-fatal noise. -/
def noiseErrorType : String := "linux.kernel.error_return_code"

/-- The loop body of `generate_issues_and_incidents`: a finding whose
`signature` is empty (falsy) is skipped; a finding of the noise error
type is skipped (`continue`); otherwise an issue and an incident are
appended.  The `error` dictionary itself is always truthy, so the
`if error and ...` guard reduces to the signature check. -/
def processErrorStep (test_type : TestType) (origin result_id : String)
    (acc : ParsedData) (e : LogspecError) : ParsedData :=
  if e.error.signature ≠ "" then
    if e.error.error_type = noiseErrorType then acc
    else
      let issue := new_issue e test_type origin
      { issue_node := acc.issue_node ++ [issue]
        incident_node :=
          acc.incident_node ++ [new_incident result_id issue.id test_type issue.version origin] }
  else acc

/-- Insertion into a Python `dict` modelled as an association list:
an existing key keeps its position and gets the new value, a new key is
appended. -/
def pyDictInsert (d : List (String × Issue)) (k : String) (v : Issue) :
    List (String × Issue) :=
  if d.any (fun p => decide (p.1 = k)) then
    d.map (fun p => if p.1 = k then (k, v) else p)
  else d ++ [(k, v)]

/-- Model of `list({issue["id"]: issue for issue in ...}.values())`: a
dict comprehension keyed by issue id (later entries overwrite earlier
ones, first-insertion order is kept) followed by `values()`. -/
def dedupIssues (issues : List Issue) : List Issue :=
  (issues.foldl (fun d i => pyDictInsert d i.id i) []).map Prod.snd

/-- Model of `logspec_api.generate_issues_and_incidents(result_id,
log_file, test_type, origin)`.  The call
`process_log(log_file, parser, start_state)` invokes the external logspec
engine on the log file; its output — the normalized error list and the
proposed new status — is passed here explicitly as `parseOutput`.  An
unknown `test_type` returns the empty accumulator and `None` before the
log is processed; otherwise each error is folded into the accumulator and
the issue list is deduplicated by id. -/
def generate_issues_and_incidents (result_id : String)
    (parseOutput : List LogspecError × Option String) (test_type : String)
    (origin : String) : ParsedData × Option String :=
  match lookupTestType test_type with
  | none => (emptyParsedData, none)
  | some tt =>
    let pd := parseOutput.1.foldl (processErrorStep tt origin result_id) emptyParsedData
    ({ pd with issue_node := dedupIssues pd.issue_node }, parseOutput.2)

/-- The findings of a batch that survive both guards of the loop in
`generate_issues_and_incidents`: non-empty signature and not of the noise
error type. -/
def eligibleErrors (errors : List LogspecError) : List LogspecError :=
  errors.filter
    (fun e => !(e.error.signature == "") && !(e.error.error_type == noiseErrorType))

/-! ## Log cache (`fetch_log_id` in `logspec_worker.py`)

The filesystem side effects of one `fetch_log_id` call are modelled as a
trace of operations, so that claims about which names are written can be
stated.  `log_id` is `hashlib.md5(log_url.encode()).hexdigest()`; the md5
value itself is irrelevant to the claims, so the function is modelled on
the already-computed `log_id`, together with the cache-hit flag
(`os.path.exists`), the HTTP outcome (`None` models a raised network
exception) and whether the URL ends in `.gz`.
-/

/-- A filesystem operation performed on the cache directory. -/
inductive FsOp where
  /-- `open(path, "wb")` followed by writing the full content -/
  | write (path : String)
  /-- `os.rename(src, dst)` -/
  | rename (src dst : String)
  /-- `os.remove(path)` -/
  | remove (path : String)
deriving DecidableEq

/-- The final cache-entry name for a log id:
`os.path.join("/cache", log_id)`. -/
def cacheFile (logId : String) : String := "/cache/" ++ logId

/-- Model of `fetch_log_id`: on a cache hit the id is returned with no
filesystem activity; on HTTP status 200 the response body is written
directly to the final cache-entry name, and for a `.gz` URL the entry is
then renamed to a `.gz` name, decompressed by writing the final name
again, and the `.gz` name removed; any other status or a network
exception returns `None` with no cache entry created.  Returns the
result of the call and the trace of filesystem operations. -/
def fetch_log_id (logId : String) (cached : Bool) (response : Option Nat)
    (gz : Bool) : Option String × List FsOp :=
  if cached then (some logId, [])
  else
    match response with
    | none => (none, [])
    | some status =>
      if status = 200 then
        let cf := cacheFile logId
        (some logId,
          [FsOp.write cf] ++
            (if gz then
              [FsOp.rename cf (cf ++ ".gz"), FsOp.write cf, FsOp.remove (cf ++ ".gz")]
            else []))
      else (none, [])

/-- The targets of the `write` operations of a trace. -/
def writePaths (ops : List FsOp) : List String :=
  ops.foldr
    (fun op acc =>
      match op with
      | .write p => p :: acc
      | _ => acc) []

/-! ## Worker pass (`logspec_process_node`, `process_tests`)

`logspec_worker.py` defines
`logspec_process_node(cursor, node, kind)` which calls
`generate_issues_and_incidents(cursor, node["id"], log_file, kind,
node["origin"])` — five positional arguments — while
`logspec_api.generate_issues_and_incidents(result_id, log_file,
test_type, origin)` declares four parameters and no defaults or varargs,
so Python raises `TypeError` at the call before the body runs.  The two
counts below are taken from the `def` line and the call site.

Worker state and per-result control flow are modelled explicitly; `Except`
errors model exceptions propagating out of the pass (none are caught in
`process_tests` or `main`).  The external pieces are inputs: `engine`
maps a cache file name to the output of `process_log` (the logspec parse
of that log), `fetch` maps a log URL to the result of `fetch_log_id`.
Dry-run mode is off, as in the production configuration.
-/

/-- Parameter count of
`logspec_api.generate_issues_and_incidents(result_id, log_file,
test_type, origin)`. -/
def generateIssuesParamCount : Nat := 4

/-- Number of positional arguments at the call site in
`logspec_process_node`: `cursor, node["id"], log_file, kind,
node["origin"]`. -/
def logspecCallArgCount : Nat := 5

/-- Exceptions that can escape the worker pass. -/
inductive WorkerError where
  /-- a Python `TypeError` -/
  | typeError
  /-- `sys.exit(1)` raised from `validate_path` on malformed config -/
  | sysExit
deriving DecidableEq

/-- Model of `logspec_process_node(cursor, node, kind)`: a failed fetch
logs and returns `None`; on a successful fetch the arity-mismatched call
of `generate_issues_and_incidents` raises `TypeError`.  The dead branch
records what the call would return if the argument count matched the
parameter count. -/
def logspec_process_node (engine : String → List LogspecError × Option String)
    (fetch : String → Option String) (node : WNode) (kind : String) :
    Except WorkerError (Option (ParsedData × Option String)) :=
  match fetch node.log_url with
  | none => .ok none
  | some logId =>
    if logspecCallArgCount = generateIssuesParamCount then
      .ok (some (generate_issues_and_incidents node.id
        (engine (cacheFile logId)) kind node.origin))
    else .error .typeError

/-- Worker-visible state: the processed-tests shelve partition and the
envelopes already published to the spool directory. -/
structure ProcState where
  processed_tests : List String
  spool : List ParsedData
deriving DecidableEq

/-- Model of `set_test_processed`: marking an already-present id is a
no-op besides a log line. -/
def set_test_processed (st : ProcState) (test_id : String) : ProcState :=
  if st.processed_tests.contains test_id then st
  else { st with processed_tests := st.processed_tests ++ [test_id] }

/-- Model of `is_test_processed`. -/
def is_test_processed (st : ProcState) (test_id : String) : Bool :=
  st.processed_tests.contains test_id

/-- One iteration of the `for test in unprocessed_tests` loop of
`process_tests` (dry-run off): an ineligible test is marked processed and
skipped; a malformed config rule exits the process; an already-processed
test is skipped; otherwise `logspec_process_node` is called, its result
pair unpacked (`res_nodes, new_status = ...` raises `TypeError` when the
call returned `None`), non-empty results are published to the spool, and
the test is marked processed. -/
def processOneTest (engine : String → List LogspecError × Option String)
    (fetch : String → Option String) (cfg : Config) (st : ProcState)
    (node : WNode) : Except WorkerError ProcState :=
  match is_processable cfg node "test" with
  | .error _ => .error .sysExit
  | .ok false => .ok (set_test_processed st node.id)
  | .ok true =>
    if is_test_processed st node.id then .ok st
    else
      match logspec_process_node engine fetch node "boot" with
      | .error e => .error e
      | .ok none => .error .typeError
      | .ok (some (res, _new_status)) =>
        let st1 :=
          if !res.issue_node.isEmpty || !res.incident_node.isEmpty then
            { st with spool := st.spool ++ [res] }
          else st
        .ok (set_test_processed st1 node.id)

/-- Model of the loop of `process_tests` over the selected batch: the
iterations run in order and an uncaught exception terminates the whole
pass (nothing in `process_tests` or `main` catches it). -/
def process_tests (engine : String → List LogspecError × Option String)
    (fetch : String → Option String) (cfg : Config) (st : ProcState)
    (tests : List WNode) : Except WorkerError ProcState :=
  tests.foldlM (processOneTest engine fetch cfg) st

/-! ## Result selectors (`get_unprocessed_tests`, `get_unprocessed_builds`)

Both selectors run one SQL query inside `try`; the outcome of
`cursor.execute` + `fetchall` is the input.  The `tests` selector
re-raises a query failure (`raise e`); the `builds` selector catches it
and returns the empty list (`return []`).
-/

/-- A database query failure. -/
inductive DbError where
  | queryFailed
deriving DecidableEq

/-- Model of `get_unprocessed_tests(cursor, origins)`: the rows on
success; the exception is logged and re-raised on failure. -/
def get_unprocessed_tests (query : Except DbError (List WNode)) :
    Except DbError (List WNode) :=
  match query with
  | .ok rows => .ok rows
  | .error e => .error e

/-- Model of `get_unprocessed_builds(cursor, origins)`: the rows on
success; the exception is logged and swallowed on failure, returning the
empty list. -/
def get_unprocessed_builds (query : Except DbError (List WNode)) :
    Except DbError (List WNode) :=
  match query with
  | .ok rows => .ok rows
  | .error _ => .ok []

/-! ## Sanity checks of the external-library models -/

set_option maxRecDepth 10000 in
example : sha1HexOfString "abc" = "a9993e364706816aba3e25717850c26c9cd0d89d" := by decide

example : fnmatch "boot/x86" "boot/*" = true := by decide

example : fnmatch "setup/foo" "boot/*" = false := by decide

example : idComponents "r1" "maestro:sig" 1 = "[\"r1\", \"maestro:sig\", 1]" := by decide

/-! ## Concrete fixtures used by witnesses and counterexamples -/

/-- A normalized finding with a non-empty signature. -/
def exampleError1 : LogspecError :=
  ⟨"logspec", "generic_linux_boot",
   ⟨"linux.kernel.panic", some "kernel panic", none, none, none, "sigA",
    "log excerpt one", []⟩⟩

/-- The same finding with a different log excerpt and summary. -/
def exampleError2 : LogspecError :=
  ⟨"logspec", "generic_linux_boot",
   ⟨"linux.kernel.panic", some "another summary", none, none, none, "sigA",
    "log excerpt two", []⟩⟩

/-- A finding with a different signature. -/
def exampleError3 : LogspecError :=
  ⟨"logspec", "generic_linux_boot",
   ⟨"linux.kernel.oops", some "oops", none, none, none, "sigB",
    "log excerpt three", []⟩⟩

/-- A noise finding: error type `linux.kernel.error_return_code` with a
non-empty signature. -/
def exampleNoise : LogspecError :=
  ⟨"logspec", "generic_linux_boot",
   ⟨"linux.kernel.error_return_code", some "rc", none, none, none, "sigC",
    "log excerpt four", []⟩⟩

/-- A finding with an empty signature. -/
def exampleNoSig : LogspecError :=
  ⟨"logspec", "generic_linux_boot",
   ⟨"linux.kernel.panic", some "no signature", none, none, none, "",
    "log excerpt five", []⟩⟩

/-- The config of testable property 4 of the spec:
`originA` has a single `test` rule with `include_path` = `boot/*`. -/
def cfgA : Config := [("originA", [⟨"test", some (.list ["boot/*"])⟩])]

/-- A config whose first matching `test` rule has no `include_path`. -/
def cfgNoPath : Config := [("originB", [⟨"test", none⟩])]

/-- A config whose `test` rule carries a malformed `include_path`. -/
def cfgMalformed : Config := [("originA", [⟨"test", some .other⟩])]

/-- A test-kind row from `originA` with path `boot/x86`. -/
def nodeBootX86 : WNode := ⟨"t1", "originA", "boot/x86", "https://example.test/log1"⟩

/-- A test-kind row from `originA` with path `setup/foo`. -/
def nodeSetupFoo : WNode := ⟨"t2", "originA", "setup/foo", "https://example.test/log2"⟩

/-- A build-kind row from `originA`. -/
def nodeBuildA : WNode := ⟨"b1", "originA", "", "https://example.test/log3"⟩

/-- A row from an origin absent from `cfgA`. -/
def nodeOtherOrigin : WNode := ⟨"t3", "originZ", "boot/x86", "https://example.test/log4"⟩

/-- A test-kind row from `originB`. -/
def nodeB : WNode := ⟨"t4", "originB", "any/path", "https://example.test/log5"⟩

/-- An engine that finds nothing in any log. -/
def engine0 : String → List LogspecError × Option String := fun _ => ([], none)

/-- A fetch that succeeds for every URL. -/
def fetchOk : String → Option String := fun _ => some "0123abcd"

/-- A fetch that fails for every URL (`fetch_log_id` returned `None`). -/
def fetchFail : String → Option String := fun _ => none

/-- The initial worker state: nothing processed, nothing spooled. -/
def st0 : ProcState := ⟨[], []⟩

/-! ## C1: issue identity stability -/

/-- C1: two normalized findings with the same origin and the same
non-empty signature yield issues with identical id — the string
`origin ++ ":" ++ signature` — and identical version 1, whatever their
other attributes are. -/
theorem C1_issue_identity_stability (e1 e2 : LogspecError) (tt : TestType)
    (origin : String) (hsig : e1.error.signature = e2.error.signature)
    (_hne : e1.error.signature ≠ "") :
    (new_issue e1 tt origin).id = (new_issue e2 tt origin).id ∧
    (new_issue e1 tt origin).id = origin ++ ":" ++ e1.error.signature ∧
    (new_issue e1 tt origin).version = 1 ∧
    (new_issue e2 tt origin).version = 1 := by
  refine ⟨?_, rfl, rfl, rfl⟩
  simp only [new_issue, hsig]

/-- Witness for C1 at two concrete findings differing in summary and log
excerpt but sharing the non-empty signature `sigA`. -/
theorem C1_issue_identity_stability_witness :
    (new_issue exampleError1 .boot "maestro").id =
      (new_issue exampleError2 .boot "maestro").id ∧
    (new_issue exampleError1 .boot "maestro").id = "maestro" ++ ":" ++
      exampleError1.error.signature ∧
    (new_issue exampleError1 .boot "maestro").version = 1 ∧
    (new_issue exampleError2 .boot "maestro").version = 1 :=
  C1_issue_identity_stability exampleError1 exampleError2 .boot "maestro" rfl (by decide)

/-! ## C2: incident identity formula -/

set_option maxRecDepth 10000 in
/-- C2 counterexample: the incident id is not the bare SHA-1 hex digest
of the JSON triple — at a concrete input the id differs from the digest
(the code prefixes the digest with `origin ++ ":"`). -/
theorem C2_incident_id_counterexample :
    (new_incident "r1" "maestro:sigA" .boot 1 "maestro").id ≠
      sha1HexOfString (idComponents "r1" "maestro:sigA" 1) := by decide

/-- C2 amended: the id of the incident returned by `new_incident` equals
the origin, a colon, and the SHA-1 hex digest of the JSON serialization
(with sorted keys) of the ordered triple
`[result_id, issue_id, issue_version]`; in particular the same inputs
always yield the same incident id. -/
theorem C2_incident_identity_formula (result_id issue_id : String)
    (tt : TestType) (issue_version : Nat) (origin : String) :
    (new_incident result_id issue_id tt issue_version origin).id =
      origin ++ ":" ++ sha1HexOfString (idComponents result_id issue_id issue_version) :=
  rfl

/-! ## C7: result-selector error propagation -/

/-- C7 counterexample: a query failure in the builds selector does not
propagate — `get_unprocessed_builds` swallows the exception and returns
the empty list. -/
theorem C7_builds_selector_counterexample :
    get_unprocessed_builds (.error .queryFailed) = .ok [] := rfl

/-- C7 amended: a query failure propagates out of the tests selector
(`raise e`), but the builds selector catches it and returns an empty
result list; on success both return the fetched rows. -/
theorem C7_selector_error_propagation (e : DbError) (rows : List WNode) :
    get_unprocessed_tests (.error e) = .error e ∧
    get_unprocessed_builds (.error e) = .ok [] ∧
    get_unprocessed_tests (.ok rows) = .ok rows ∧
    get_unprocessed_builds (.ok rows) = .ok rows :=
  ⟨rfl, rfl, rfl, rfl⟩

/-! ## C9: log-cache write targets -/

/-- C9 counterexample: at a concrete input (uncached gzipped URL, HTTP
200) the fetch performs writes whose target is exactly the final
cache-entry name, so not every write happens under a temporary name
distinct from the final name. -/
theorem C9_cache_write_counterexample :
    ¬ (∀ p ∈ writePaths (fetch_log_id "abcdef0123" false (some 200) true).2,
        p ≠ cacheFile "abcdef0123") := by decide

/-- C9 amended: every filesystem write performed by `fetch_log_id`
targets the final cache-entry name directly — the fetched content is
written to the final name, and for a gzipped log the decompressed content
is written to the final name again (the only temporary name is the `.gz`
rename used during decompression) — so a partially-written entry can be
observable under the final name. -/
theorem C9_cache_writes_final_name (logId : String) (cached : Bool)
    (response : Option Nat) (gz : Bool) :
    (writePaths (fetch_log_id logId cached response gz).2).all
      (fun p => p == cacheFile logId) = true := by
  cases cached with
  | true => simp [fetch_log_id, writePaths]
  | false =>
    cases response with
    | none => simp [fetch_log_id, writePaths]
    | some status =>
      by_cases h : status = 200
      · cases gz <;> simp [fetch_log_id, writePaths, h]
      · simp [fetch_log_id, writePaths, h]

/-! ## C10: boot special cases -/

/-- C10: for the `generic_linux_boot` parser, a parsed boot state that
reached a prompt (with bootloader done and kernel started) on a failed
result yields exactly one synthetic unclean-boot finding, placed before
the engine's own findings, with proposed corrected status `PASS`; a
parsed state whose bootloader did not finish (and no prompt) yields
exactly one synthetic boot-infra-failure finding, placed before the
engine's own findings, with proposed status `MISS`. -/
theorem C10_boot_special_cases (pd : ParsedLogData) :
    (pd.prompt = true → pd.bootloader_done = true → pd.kernel_started = true →
      get_logspec_errors pd "generic_linux_boot" =
        (createSpecialBootError pd uncleanBootSummary ::
          pd.errors.map (convertEngineError "generic_linux_boot"), some "PASS")) ∧
    (pd.prompt = false → pd.bootloader_done = false →
      get_logspec_errors pd "generic_linux_boot" =
        (createSpecialBootError pd bootInfraSummary ::
          pd.errors.map (convertEngineError "generic_linux_boot"), some "MISS")) := by
  constructor
  · intro hp _ _
    simp [get_logspec_errors, hp]
  · intro hp hb
    simp [get_logspec_errors, hp, hb]

/-- A parsed boot state that reached a prompt, with one engine finding. -/
def pdPrompt : ParsedLogData :=
  ⟨[⟨"linux.kernel.panic", some "panic", none, none, none, "sigE", "excerpt", []⟩],
   "bootsig", [("field", "value")], true, true, true⟩

/-- A parsed boot state whose bootloader never finished. -/
def pdNoBoot : ParsedLogData := ⟨[], "bootsig2", [], false, false, false⟩

/-- Witness for C10 at the two concrete parsed boot states. -/
theorem C10_boot_special_cases_witness :
    get_logspec_errors pdPrompt "generic_linux_boot" =
      (createSpecialBootError pdPrompt uncleanBootSummary ::
        pdPrompt.errors.map (convertEngineError "generic_linux_boot"), some "PASS") ∧
    get_logspec_errors pdNoBoot "generic_linux_boot" =
      (createSpecialBootError pdNoBoot bootInfraSummary ::
        pdNoBoot.errors.map (convertEngineError "generic_linux_boot"), some "MISS") :=
  ⟨(C10_boot_special_cases pdPrompt).1 rfl rfl rfl,
   (C10_boot_special_cases pdNoBoot).2 rfl rfl⟩

/-! ## C5: eligibility correctness -/

/-- When the first kind-matching rule of a rule list declares no
`include_path`, the scan accepts unconditionally. -/
theorem isProcessableRules_no_include_path (rules : List Rule) (path ty : String)
    (r : Rule) (hfind : rules.find? (fun rr => rr.type = ty) = some r)
    (hip : r.include_path = none) :
    isProcessableRules rules path ty = .ok true := by
  induction rules with
  | nil => simp at hfind
  | cons hd tl ih =>
    by_cases h : hd.type = ty
    · rw [List.find?_cons_of_pos _ (by simpa using h)] at hfind
      have hr : hd = r := by simpa using hfind
      subst hr
      simp [isProcessableRules, h, hip]
    · rw [List.find?_cons_of_neg _ (by simpa using h)] at hfind
      simp [isProcessableRules, h, ih hfind]

/-- C5: with the config mapping `originA` to the single rule
`type = test, include_path = [boot/*]`, a test-kind result from `originA`
with path `boot/x86` is eligible, one with path `setup/foo` is not, a
build-kind result from `originA` is not; in general a result whose origin
is absent from the config is never eligible, and a first kind-matching
rule without `include_path` makes the result eligible unconditionally. -/
theorem C5_eligibility_correctness :
    is_processable cfgA nodeBootX86 "test" = .ok true ∧
    is_processable cfgA nodeSetupFoo "test" = .ok false ∧
    is_processable cfgA nodeBuildA "build" = .ok false ∧
    (∀ (cfg : Config) (node : WNode) (ty : String),
      lookupOrigin cfg node.origin = none →
      is_processable cfg node ty = .ok false) ∧
    (∀ (cfg : Config) (node : WNode) (ty : String) (rules : List Rule) (r : Rule),
      lookupOrigin cfg node.origin = some rules →
      rules.find? (fun rr => rr.type = ty) = some r →
      r.include_path = none →
      is_processable cfg node ty = .ok true) := by
  refine ⟨by decide, by decide, by decide, ?_, ?_⟩
  · intro cfg node ty h
    simp [is_processable, h]
  · intro cfg node ty rules r h1 h2 h3
    simp [is_processable, h1, isProcessableRules_no_include_path rules node.path ty r h2 h3]

/-- Witness for C5's general conjuncts: an unlisted origin is rejected
under `cfgA`, and a first matching rule without `include_path` accepts
under `cfgNoPath`. -/
theorem C5_eligibility_correctness_witness :
    is_processable cfgA nodeOtherOrigin "test" = .ok false ∧
    is_processable cfgNoPath nodeB "test" = .ok true := by
  constructor
  · exact C5_eligibility_correctness.2.2.2.1 cfgA nodeOtherOrigin "test" (by decide)
  · exact C5_eligibility_correctness.2.2.2.2 cfgNoPath nodeB "test"
      [⟨"test", none⟩] ⟨"test", none⟩ (by decide) (by decide) rfl

/-! ## C8: malformed-config error timing -/

/-- A test-kind row used for the malformed-config scenario. -/
def nodeMal : WNode := ⟨"t9", "originA", "boot/x86", "https://example.test/log9"⟩

/-- C8 counterexample: loading a config whose `include_path` is neither a
string nor a list succeeds (startup does not validate it), and the fatal
error surfaces instead when the eligibility check first evaluates the
malformed rule for a record — contradicting "reported fatally at startup
(config load time), not per-record during processing". -/
theorem C8_config_timing_counterexample :
    load_config (.parsed cfgMalformed) = .ok cfgMalformed ∧
    is_processable cfgMalformed nodeMal "test" = .error () := ⟨rfl, rfl⟩

/-- A config is well-formed when every `include_path` value is a string
or a list. -/
def wellFormedConfig (cfg : Config) : Bool :=
  cfg.all (fun p => p.2.all (fun r => r.include_path ≠ some IncludePath.other))

/-- Scanning a rule list whose `include_path` values are all well-formed
never exits: it returns a boolean. -/
theorem isProcessableRules_wellFormed (rules : List Rule) (path ty : String)
    (h : rules.all (fun r => r.include_path ≠ some IncludePath.other) = true) :
    ∃ b, isProcessableRules rules path ty = .ok b := by
  induction rules with
  | nil => exact ⟨false, rfl⟩
  | cons hd tl ih =>
    simp only [List.all_cons, Bool.and_eq_true] at h
    by_cases hty : hd.type = ty
    · match hhd : hd.include_path with
      | none => exact ⟨true, by simp [isProcessableRules, hty, hhd]⟩
      | some (.str s) =>
        exact ⟨fnmatch path s, by simp [isProcessableRules, hty, hhd, validate_path]⟩
      | some (.list l) =>
        exact ⟨l.any (fun pat => fnmatch path pat),
          by simp [isProcessableRules, hty, hhd, validate_path]⟩
      | some .other => simp [hhd] at h
    · obtain ⟨b, hb⟩ := ih h.2
      exact ⟨b, by simp [isProcessableRules, hty, hb]⟩

/-- C8 amended: a malformed `include_path` (neither string nor list) is a
configuration error reported fatally, but at the time the eligibility
check first evaluates the malformed rule for a record during processing —
config loading stores the parsed mapping without validating it; for
well-formed config the eligibility check returns a boolean and raises no
exception. -/
theorem C8_config_error_timing :
    (∀ c : Config, load_config (.parsed c) = .ok c) ∧
    (∀ (cfg : Config) (node : WNode) (ty : String),
      wellFormedConfig cfg = true →
      ∃ b, is_processable cfg node ty = .ok b) ∧
    is_processable cfgMalformed nodeMal "test" = .error () := by
  refine ⟨fun c => rfl, ?_, rfl⟩
  intro cfg node ty h
  match hl : lookupOrigin cfg node.origin with
  | none => exact ⟨false, by simp [is_processable, hl]⟩
  | some rules =>
    have hmem : (node.origin, rules) ∈ cfg := by
      unfold lookupOrigin at hl
      obtain ⟨⟨a, b⟩, hp1, hp2⟩ := Option.map_eq_some'.mp hl
      have hkey : a = node.origin := by simpa using List.find?_some hp1
      have hmem2 := List.mem_of_find?_eq_some hp1
      simp only [Prod.snd] at hp2
      subst hkey
      subst hp2
      exact hmem2
    have hall : rules.all (fun r => r.include_path ≠ some IncludePath.other) = true := by
      unfold wellFormedConfig at h
      rw [List.all_eq_true] at h
      simpa using h _ hmem
    obtain ⟨b, hb⟩ := isProcessableRules_wellFormed rules node.path ty hall
    exact ⟨b, by simp [is_processable, hl, hb]⟩

/-- Witness for C8's universally quantified parts: the well-formed
`cfgA` yields a boolean for a concrete row. -/
theorem C8_config_error_timing_witness :
    load_config (.parsed cfgA) = .ok cfgA ∧
    ∃ b, is_processable cfgA nodeBootX86 "test" = .ok b :=
  ⟨C8_config_error_timing.1 cfgA,
   C8_config_error_timing.2.1 cfgA nodeBootX86 "test" (by decide)⟩

/-! ## C3: the worker's arity-mismatched call -/

/-- C3: for a result whose log fetch succeeds, `logspec_process_node`
raises `TypeError` — the call site passes five positional arguments
(the cursor prepended) to the four-parameter
`generate_issues_and_incidents` — and hence a result that passed the
eligibility and processed-set checks ends its loop iteration with that
exception: no issues/incidents pair is returned and nothing is appended
to the spool. -/
theorem C3_worker_call_arity (engine : String → List LogspecError × Option String)
    (fetch : String → Option String) (node : WNode) (kind : String)
    (logId : String) (hfetch : fetch node.log_url = some logId) :
    logspec_process_node engine fetch node kind = .error .typeError ∧
    (∀ (cfg : Config) (st : ProcState),
      is_processable cfg node "test" = .ok true →
      is_test_processed st node.id = false →
      processOneTest engine fetch cfg st node = .error .typeError) := by
  have key : ∀ k, logspec_process_node engine fetch node k = .error .typeError := by
    intro k
    simp [logspec_process_node, hfetch, logspecCallArgCount, generateIssuesParamCount]
  refine ⟨key kind, ?_⟩
  intro cfg st h1 h2
  simp [processOneTest, h1, h2, key "boot"]

/-- Witness for C3 at a concrete eligible, unprocessed row whose fetch
succeeds. -/
theorem C3_worker_call_arity_witness :
    logspec_process_node engine0 fetchOk nodeBootX86 "boot" = .error .typeError ∧
    processOneTest engine0 fetchOk cfgA st0 nodeBootX86 = .error .typeError :=
  ⟨(C3_worker_call_arity engine0 fetchOk nodeBootX86 "boot" "0123abcd" rfl).1,
   (C3_worker_call_arity engine0 fetchOk nodeBootX86 "boot" "0123abcd" rfl).2
     cfgA st0 (by decide) rfl⟩

/-! ## C6: per-result failure isolation (code bug)

The claim says a log fetch failure for one result aborts only that
result and the pass continues with the next one.  The code's own intent
agrees — `fetch_log_id` returns `None` and `logspec_process_node` logs
the error and returns `None` instead of raising — but the caller in
`process_tests` unpacks the return value
(`res_nodes, new_status = logspec_process_node(...)`), so a `None`
raises `TypeError: cannot unpack non-iterable NoneType`, which nothing
catches: the whole pass terminates and later results in the batch are
never examined.  (The affected result is indeed not marked processed.)
The theorem below evaluates the model at the failing input. -/

/-- A second eligible row, to show the pass does not continue to it. -/
def nodeBootArm : WNode := ⟨"t5", "originA", "boot/arm64", "https://example.test/log6"⟩

/-- C6: at a concrete eligible, unprocessed row whose log fetch fails,
the loop iteration raises `TypeError` instead of continuing, and a
two-row pass terminates with that exception — the second row is never
processed, nothing is spooled and nothing is marked processed. -/
theorem C6_fetch_failure_aborts_pass :
    processOneTest engine0 fetchFail cfgA st0 nodeBootX86 = .error .typeError ∧
    process_tests engine0 fetchFail cfgA st0 [nodeBootX86, nodeBootArm] =
      .error .typeError := by
  constructor
  · rfl
  · rfl

/-! ## C4: dedup with noise suppression -/

/-- The incident generated for one eligible finding inside the loop of
`generate_issues_and_incidents`. -/
def incidentFor (tt : TestType) (origin result_id : String) (e : LogspecError) :
    Incident :=
  new_incident result_id (new_issue e tt origin).id tt (new_issue e tt origin).version origin

/-- Unfolding the loop of `generate_issues_and_incidents`: the
accumulator collects one issue and one incident per eligible finding, in
batch order. -/
theorem foldl_processErrorStep (tt : TestType) (origin result_id : String)
    (errors : List LogspecError) (acc : ParsedData) :
    errors.foldl (processErrorStep tt origin result_id) acc =
      ⟨acc.issue_node ++ (eligibleErrors errors).map (fun e => new_issue e tt origin),
       acc.incident_node ++ (eligibleErrors errors).map (incidentFor tt origin result_id)⟩ := by
  induction errors generalizing acc with
  | nil => simp [eligibleErrors]
  | cons e es ih =>
    rw [List.foldl_cons, ih]
    by_cases h1 : e.error.signature = ""
    · simp [processErrorStep, eligibleErrors, List.filter_cons, h1]
    · by_cases h2 : e.error.error_type = noiseErrorType
      · simp [processErrorStep, eligibleErrors, List.filter_cons, h1, h2]
      · simp [processErrorStep, eligibleErrors, List.filter_cons, h1, h2, incidentFor]

/-- The keys of a Python dict after one insertion: an existing key keeps
the key list, a new key is appended. -/
theorem pyDictInsert_keys (d : List (String × Issue)) (k : String) (v : Issue) :
    (pyDictInsert d k v).map Prod.fst =
      if k ∈ d.map Prod.fst then d.map Prod.fst else d.map Prod.fst ++ [k] := by
  have hmem : (d.any (fun p => decide (p.1 = k)) = true) ↔ k ∈ d.map Prod.fst := by
    simp [List.any_eq_true, List.mem_map]
  unfold pyDictInsert
  by_cases h : k ∈ d.map Prod.fst
  · rw [if_pos (hmem.mpr h), if_pos h, List.map_map]
    apply List.map_congr_left
    intro p _
    by_cases hp : p.1 = k
    · simp [hp]
    · simp [hp]
  · rw [if_neg (fun hc => h (hmem.mp hc)), if_neg h, List.map_append]
    rfl

/-- The length of a Python dict equals the length of its key list. -/
theorem pyDict_length_eq_keys_length (d : List (String × Issue)) :
    d.length = (d.map Prod.fst).length := (List.length_map d Prod.fst).symm

/-- Folding dict insertions over a batch: the key list stays duplicate
free and its set of keys is the starting keys united with the batch ids. -/
theorem foldl_pyDictInsert_keys (issues : List Issue) (d : List (String × Issue))
    (hnd : (d.map Prod.fst).Nodup) :
    ((issues.foldl (fun d i => pyDictInsert d i.id i) d).map Prod.fst).Nodup ∧
    ((issues.foldl (fun d i => pyDictInsert d i.id i) d).map Prod.fst).toFinset =
      (d.map Prod.fst).toFinset ∪ (issues.map Issue.id).toFinset := by
  induction issues generalizing d with
  | nil => simp [hnd]
  | cons i is ih =>
    have hkeys := pyDictInsert_keys d i.id i
    by_cases h : i.id ∈ d.map Prod.fst
    · rw [if_pos h] at hkeys
      have hnd2 : ((pyDictInsert d i.id i).map Prod.fst).Nodup := hkeys ▸ hnd
      obtain ⟨ha, hb⟩ := ih (pyDictInsert d i.id i) hnd2
      refine ⟨ha, ?_⟩
      rw [List.foldl_cons, hb, hkeys, List.map_cons, List.toFinset_cons,
        Finset.union_insert,
        Finset.insert_eq_self.mpr (Finset.mem_union_left _ (List.mem_toFinset.mpr h))]
    · rw [if_neg h] at hkeys
      have hnd2 : ((pyDictInsert d i.id i).map Prod.fst).Nodup := by
        rw [hkeys, List.nodup_append]
        refine ⟨hnd, List.nodup_singleton _, ?_⟩
        intro a ha hb
        rw [List.mem_singleton] at hb
        exact h (hb ▸ ha)
      obtain ⟨ha, hb⟩ := ih (pyDictInsert d i.id i) hnd2
      refine ⟨ha, ?_⟩
      rw [List.foldl_cons, hb, hkeys, List.toFinset_append, List.map_cons,
        List.toFinset_cons]
      ext a
      simp only [Finset.mem_union, List.mem_toFinset, List.mem_cons,
        List.mem_singleton, List.not_mem_nil, List.toFinset_nil, Finset.mem_insert,
        Finset.not_mem_empty]
      tauto

/-- The Python dict dedup keeps exactly one issue per distinct id. -/
theorem dedupIssues_length (issues : List Issue) :
    (dedupIssues issues).length = (issues.map Issue.id).toFinset.card := by
  unfold dedupIssues
  obtain ⟨hnd, hset⟩ := foldl_pyDictInsert_keys issues [] (by simp)
  rw [List.length_map, pyDict_length_eq_keys_length, ← List.toFinset_card_of_nodup hnd,
    hset]
  simp

/-- `toFinset` commutes with `map` as an image. -/
theorem list_toFinset_map {α β : Type} [DecidableEq α] [DecidableEq β]
    (f : α → β) (l : List α) : (l.map f).toFinset = l.toFinset.image f := by
  induction l with
  | nil => simp
  | cons a t ih => simp [ih]

/-- Appending a fixed prefix to strings is injective. -/
theorem string_append_left_injective (p : String) :
    Function.Injective (fun s => p ++ s) := by
  intro a b h
  have hd : p.data ++ a.data = p.data ++ b.data := by
    have := congrArg String.data h
    simpa [String.data_append] using this
  apply String.ext
  exact List.append_cancel_left hd

/-- C4: over a batch of findings, `generate_issues_and_incidents`
returns one issue per distinct signature occurring among the eligible
findings (non-empty signature, not the noise error type), one incident
per eligible finding, and a noise-type finding alone produces neither an
issue nor an incident. -/
theorem C4_dedup_noise_suppression (errors : List LogspecError) (ns : Option String)
    (result_id tts origin : String) (tt : TestType)
    (h : lookupTestType tts = some tt) :
    ((generate_issues_and_incidents result_id (errors, ns) tts origin).1.issue_node.length =
      ((eligibleErrors errors).map (fun e => e.error.signature)).toFinset.card) ∧
    ((generate_issues_and_incidents result_id (errors, ns) tts origin).1.incident_node.length =
      (eligibleErrors errors).length) ∧
    (∀ e : LogspecError, e.error.error_type = noiseErrorType →
      generate_issues_and_incidents result_id ([e], ns) tts origin =
        (emptyParsedData, ns)) := by
  simp only [generate_issues_and_incidents, h, foldl_processErrorStep tt origin result_id,
    emptyParsedData, List.nil_append]
  refine ⟨?_, ?_, ?_⟩
  · rw [dedupIssues_length, List.map_map]
    have hcomp :
        (Issue.id ∘ fun e => new_issue e tt origin) =
          (fun s => origin ++ ":" ++ s) ∘ (fun e : LogspecError => e.error.signature) := by
      funext e
      rfl
    rw [hcomp, ← List.map_map, list_toFinset_map,
      Finset.card_image_of_injective _ (string_append_left_injective (origin ++ ":"))]
  · rw [List.length_map]
  · intro e he
    simp [eligibleErrors, List.filter_cons, he, dedupIssues]

/-- A concrete batch: two findings sharing signature `sigA`, one with
signature `sigB`, one noise finding and one finding without a
signature. -/
def exampleBatch : List LogspecError :=
  [exampleError1, exampleError2, exampleError3, exampleNoise, exampleNoSig]

/-- Witness for C4 at the concrete batch under the `boot` object type. -/
theorem C4_dedup_noise_suppression_witness :
    ((generate_issues_and_incidents "r1" (exampleBatch, none) "boot"
        "maestro").1.issue_node.length =
      ((eligibleErrors exampleBatch).map (fun e => e.error.signature)).toFinset.card) ∧
    ((generate_issues_and_incidents "r1" (exampleBatch, none) "boot"
        "maestro").1.incident_node.length =
      (eligibleErrors exampleBatch).length) ∧
    (∀ e : LogspecError, e.error.error_type = noiseErrorType →
      generate_issues_and_incidents "r1" ([e], none) "boot" "maestro" =
        (emptyParsedData, none)) :=
  C4_dedup_noise_suppression exampleBatch none "r1" "boot" "maestro" .boot rfl
